import Mathlib

/-!
Verification development for the movie-discovery application.

The Python sources are shallowly embedded:
  pure helpers become Lean functions over a JSON value type;
  the on-disk TTL cache, the HTTP clients and the auth client become
  explicit state-passing functions over a `St` record (cache file
  contents, current time, a log of issued HTTP requests, and the auth
  client object), with external HTTP behaviour supplied by oracles in
  an `Env` record; Python exceptions become an `Except PyError` result.
Machine time is modelled as an integer clock; within a single claim no
time passes, matching the wording of the spec (a single `now` is held
in the state).
-/

namespace MovieApp

/-- JSON values as produced by Python `json.load` / `resp.json()`.
Python `None` is identified with JSON `null`. Numbers are modelled as
integers (timestamps, ids, pages; fractional parts play no role in any
property below). -/
inductive JValue where
  | null
  | bool (b : Bool)
  | num (n : Int)
  | str (s : String)
  | arr (xs : List JValue)
  | obj (fields : List (String × JValue))

/-- A Python dict with string keys, as an association list in insertion
order (dicts coming from `json.load` have unique keys). -/
abbrev JObj := List (String × JValue)

/-- Python truthiness of a JSON value (`if not e: ...`). -/
def truthy : JValue → Bool
  | .null => false
  | .bool b => b
  | .num n => n != 0
  | .str s => s ≠ ""
  | .arr xs => !xs.isEmpty
  | .obj fs => !fs.isEmpty

/-- `d[k]` lookup for the first matching key: Python `dict.get(k)` as an
`Option`. -/
def jget : JObj → String → Option JValue
  | [], _ => none
  | (k', v') :: rest, k => if k' = k then some v' else jget rest k

/-- Python `dict.get(k, default)`. -/
def jgetD (fs : JObj) (k : String) (d : JValue) : JValue :=
  (jget fs k).getD d

/-- Python `d[k] = v`: replace in place when the key exists, append
otherwise (dict insertion order). -/
def jset : JObj → String → JValue → JObj
  | [], k, v => [(k, v)]
  | (k', v') :: rest, k, v =>
    if k' = k then (k, v) :: jset rest k v else (k', v') :: jset rest k v

/-- Python `a or b`. -/
def pyOr (a b : JValue) : JValue :=
  if truthy a then a else b

/-- Python `str()` on JSON-parsed values, used by f-string interpolation.
Scalar cases are exact; the container renderings are an approximation
(no theorem below ever interpolates a container into a string). -/
def pyStr : JValue → String
  | .null => "None"
  | .bool b => if b then "True" else "False"
  | .num n => toString n
  | .str s => s
  | .arr _ => "[...]"
  | .obj _ => "\x7b...\x7d"

/-- Python exceptions raised by the embedded code. -/
inductive PyError where
  | valueError (msg : String)
  | tmdbError (msg : String)
  | firebaseAuthError (msg : JValue)
  | configError (msg : String)
  | attributeError
  | typeError
  | requestException
  | jsonDecodeError

/-- The `FirebaseAuthClient` object (`firebase_auth.py`): api key, the
already-rstripped database url, and the mutable `user` field (`None`
until a successful sign-in stores the raw response payload). -/
structure FbClient where
  api_key : String
  db_url : String
  user : Option JValue

/-- The mutable world: the cache file on disk (`none` when the file does
not exist or is unreadable), the current clock, the log of issued HTTP
requests (urls/paths, in order), and the auth client object. -/
structure St where
  cacheFile : Option JValue
  now : Int
  log : List String
  fb : FbClient

/-- Read-only environment: configured keys and HTTP oracles for the
three providers. An oracle result of `none` is a transport failure
(`requests` exception); `some (status, body)` is a response with the
given status code and body, where a body of `none` is undecodable JSON. -/
structure Env where
  tmdbApiKey : Option String
  omdbApiKey : Option String
  tmdbHttp : String → JObj → Option (Int × Option JValue)
  omdbHttp : JValue → Option (Int × Option JValue)
  fbPost : String → JObj → Option (Int × Option JValue)
  fbGet : String → Option (Int × Option JValue)
  fbPut : String → JValue → Option (Int × Option JValue)

/-! ## The TTL cache (`tmdb_client.py` lines 21-76) -/

/-- `CACHE_TTL = 60 * 60`. -/
def CACHE_TTL : Int := 60 * 60

/-- Numeric coercion used by Python `+` / `<` on JSON-loaded values
(`bool` is an `int` subclass); anything else raises `TypeError`. -/
def asNum : JValue → Option Int
  | .num n => some n
  | .bool b => some (if b then 1 else 0)
  | _ => none

/-- One iteration of the pruning loop of `_load_cache`: `some true` to
keep the entry, `some false` to delete it, `none` when the loop body
raises (a truthy non-dict entry has no `.get`; non-numeric `ts`/`ttl`
make `+`/`<` raise). A falsy entry is skipped by `if not e: continue`,
hence kept. -/
def entryKeep (now : Int) (e : JValue) : Option Bool :=
  if truthy e = false then some true
  else
    match e with
    | .obj efs =>
      match asNum (jgetD efs "ts" (.num 0)), asNum (jgetD efs "ttl" (.num CACHE_TTL)) with
      | some ts, some ttl => some (!decide (ts + ttl < now))
      | _, _ => none
    | _ => none

/-- The pruning loop of `_load_cache` over the loaded dict: drops
expired entries in order; `none` when any iteration raises (the whole
load then degrades to an empty dict). -/
def pruneList (now : Int) : JObj → Option JObj
  | [] => some []
  | (k, e) :: rest =>
    match entryKeep now e with
    | none => none
    | some true =>
      match pruneList now rest with
      | none => none
      | some kept => some ((k, e) :: kept)
    | some false => pruneList now rest

/-- `_load_cache()`: returns the in-memory dict and the possibly
rewritten file. A missing file, a file whose JSON is not a dict (its
`.keys()` raises), or a type error while pruning all yield the empty
dict with the file left unchanged (the whole body is one `try`).
The pruned dict is written back only when an entry was dropped. -/
def _load_cache (s : St) : JObj × St :=
  match s.cacheFile with
  | some (.obj fs) =>
    match pruneList s.now fs with
    | some kept =>
      if kept.length = fs.length then (fs, s)
      else (kept, { s with cacheFile := some (.obj kept) })
    | none => ([], s)
  | _ => ([], s)

/-- `_save_cache(cache)`: whole-file overwrite (I/O failure, which the
source swallows, is outside the claims and not modelled). -/
def _save_cache (c : JObj) (s : St) : St :=
  { s with cacheFile := some (.obj c) }

/-- `_cache_get(key)`: load, look up, return `None` for a missing or
falsy entry, else `entry.get('value')`. A truthy non-dict entry would
raise `AttributeError` (no `try` here). -/
def _cache_get (key : String) (s : St) : Except PyError JValue × St :=
  match _load_cache s with
  | (c, s1) =>
    match jget c key with
    | none => (.ok .null, s1)
    | some entry =>
      if truthy entry = false then (.ok .null, s1)
      else
        match entry with
        | .obj efs => (.ok (jgetD efs "value" .null), s1)
        | _ => (.error .attributeError, s1)

/-- `_cache_set(key, value, ttl)`: load, overwrite the entry with the
current timestamp and the given ttl, save the whole store. -/
def _cache_set (key : String) (value : JValue) (ttl : Int) (s : St) : St :=
  match _load_cache s with
  | (c, s1) =>
    _save_cache (jset c key (.obj [("ts", .num s1.now), ("ttl", .num ttl), ("value", value)])) s1

/-! ## TMDB client transport and normalization (`tmdb_client.py`) -/

def API_BASE : String := "https://api.themoviedb.org/3"

def IMAGE_BASE : String := "https://image.tmdb.org/t/p"

def POSTER_SIZE : String := "w500"

/-- Truthiness of an optional configuration string (`if not KEY`). -/
def optStrTruthy : Option String → Bool
  | none => false
  | some s => s ≠ ""

/-- Python `p.update(params)` applied to an existing dict. -/
def updateAll (base : JObj) : JObj → JObj
  | [] => base
  | (k, v) :: rest => updateAll (jset base k v) rest

/-- Error text of a non-200 TMDB response:
`j.get('status_message') or j` when the body is a JSON dict; when the
body is other JSON, `.get` raises and the code falls back to the raw
response text, which is not modelled (no claim inspects this string). -/
def reqErrMsg (status : Int) (body : Option JValue) : String :=
  "TMDB " ++ toString status ++ ": " ++
    (match body with
     | some (.obj bs) => pyStr (pyOr (jgetD bs "status_message" .null) (.obj bs))
     | _ => "")

/-- `_req(path, params)`: raise when no api key is configured (before
any request), issue the GET (logged), surface transport errors, non-200
statuses and undecodable bodies as `TMDbError`, else return the parsed
JSON. -/
def _req (env : Env) (path : String) (params : JObj) (s : St) : Except PyError JValue × St :=
  match env.tmdbApiKey with
  | none => (.error (.tmdbError "TMDB_API_KEY not set"), s)
  | some k =>
    if k = "" then (.error (.tmdbError "TMDB_API_KEY not set"), s)
    else
      match env.tmdbHttp path (updateAll [("api_key", .str k)] params) with
      | none => (.error (.tmdbError "Network error"), { s with log := s.log ++ [path] })
      | some (status, body) =>
        if status ≠ 200 then
          (.error (.tmdbError (reqErrMsg status body)), { s with log := s.log ++ [path] })
        else
          match body with
          | some j => (.ok j, { s with log := s.log ++ [path] })
          | none => (.error (.tmdbError "Failed to decode JSON"), { s with log := s.log ++ [path] })

/-- `_poster_url(path)`: `None` for a falsy path, else the f-string
`IMAGE_BASE/POSTER_SIZE` followed by the interpolated path. -/
def _poster_url (path : JValue) : JValue :=
  if truthy path = false then .null
  else .str (IMAGE_BASE ++ "/" ++ POSTER_SIZE ++ pyStr path)

/-- Loop body of the multi branch of `search_multi`: skip records whose
`media_type` is neither `movie` nor `tv` (`.ok none`), else normalize.
A non-dict record has no `.get` and raises. -/
def multiItem (it : JValue) : Except PyError (Option JValue) :=
  match it with
  | .obj itf =>
    match jgetD itf "media_type" .null with
    | .str t =>
      if t = "movie" ∨ t = "tv" then
        .ok (some (.obj [
          ("type", .str t),
          ("id", jgetD itf "id" .null),
          ("title", if t = "movie" then jgetD itf "title" .null else jgetD itf "name" .null),
          ("release_date", pyOr (jgetD itf "release_date" .null) (jgetD itf "first_air_date" .null)),
          ("overview", jgetD itf "overview" .null),
          ("poster", _poster_url (jgetD itf "poster_path" .null)),
          ("popularity", jgetD itf "popularity" .null),
          ("tmdb_raw", it)]))
      else .ok none
    | _ => .ok none
  | _ => .error .attributeError

/-- The multi-branch result loop, in provider order. -/
def multiFold : List JValue → Except PyError (List JValue)
  | [] => .ok []
  | it :: rest =>
    match multiItem it with
    | .error e => .error e
    | .ok none => multiFold rest
    | .ok (some item) =>
      match multiFold rest with
      | .error e => .error e
      | .ok items => .ok (item :: items)

/-- Loop body of the movie/tv branch of `search_multi`: the record is
tagged with the caller-supplied `kind` verbatim. -/
def singleItem (kind : String) (it : JValue) : Except PyError JValue :=
  match it with
  | .obj itf =>
    .ok (.obj [
      ("type", .str kind),
      ("id", jgetD itf "id" .null),
      ("title", pyOr (jgetD itf "title" .null) (jgetD itf "name" .null)),
      ("release_date", pyOr (jgetD itf "release_date" .null) (jgetD itf "first_air_date" .null)),
      ("overview", jgetD itf "overview" .null),
      ("poster", _poster_url (jgetD itf "poster_path" .null)),
      ("popularity", jgetD itf "popularity" .null),
      ("tmdb_raw", it)])
  | _ => .error .attributeError

/-- The movie/tv-branch result loop, in provider order. -/
def singleFold (kind : String) : List JValue → Except PyError (List JValue)
  | [] => .ok []
  | it :: rest =>
    match singleItem kind it with
    | .error e => .error e
    | .ok item =>
      match singleFold kind rest with
      | .error e => .error e
      | .ok items => .ok (item :: items)

/-- `search_multi(query, kind, page)`: consult the cache; in multi (or
`both`) mode call the combined endpoint and keep only movie/tv records;
otherwise call `/search/movie` when kind is `movie` and `/search/tv`
for EVERY other kind (no validation of `kind` takes place); store the
result in the cache. The cached early return hands back whatever value
was stored. -/
def search_multi (env : Env) (query kind : String) (page : Int) (s : St) :
    Except PyError JValue × St :=
  match _cache_get ("search:" ++ kind ++ ":" ++ query ++ ":" ++ toString page) s with
  | (.error e, s1) => (.error e, s1)
  | (.ok cached, s1) =>
    match cached with
    | .null =>
      if kind = "multi" ∨ kind = "both" then
        match _req env "/search/multi"
            [("query", .str query), ("page", .num page), ("include_adult", .bool false)] s1 with
        | (.error e, s2) => (.error e, s2)
        | (.ok data, s2) =>
          match data with
          | .obj df =>
            match jgetD df "results" (.arr []) with
            | .arr its =>
              match multiFold its with
              | .error e => (.error e, s2)
              | .ok results =>
                (.ok (.arr results),
                  _cache_set ("search:" ++ kind ++ ":" ++ query ++ ":" ++ toString page)
                    (.arr results) CACHE_TTL s2)
            | _ => (.error .typeError, s2)
          | _ => (.error .attributeError, s2)
      else
        match _req env (if kind = "movie" then "/search/movie" else "/search/tv")
            [("query", .str query), ("page", .num page), ("include_adult", .bool false)] s1 with
        | (.error e, s2) => (.error e, s2)
        | (.ok data, s2) =>
          match data with
          | .obj df =>
            match jgetD df "results" (.arr []) with
            | .arr its =>
              match singleFold kind its with
              | .error e => (.error e, s2)
              | .ok results =>
                (.ok (.arr results),
                  _cache_set ("search:" ++ kind ++ ":" ++ query ++ ":" ++ toString page)
                    (.arr results) CACHE_TTL s2)
            | _ => (.error .typeError, s2)
          | _ => (.error .attributeError, s2)
    | v => (.ok v, s1)

/-- Loop body of `get_trending` normalization; `media_type` is the
caller argument, `r` one raw provider record. The poster is derived by
string concatenation, which needs `poster_path` to be a string when
truthy. -/
def trendingItem (media_type : String) (r : JValue) : Except PyError JValue :=
  match r with
  | .obj rf =>
    match (if truthy (jgetD rf "poster_path" .null) then
             match jgetD rf "poster_path" .null with
             | .str p => Except.ok (JValue.str ("https://image.tmdb.org/t/p/w342" ++ p))
             | _ => Except.error PyError.typeError
           else Except.ok JValue.null) with
    | .error e => .error e
    | .ok poster =>
      .ok (.obj [
        ("id", jgetD rf "id" .null),
        ("media_type",
          if media_type ≠ "all" then pyOr (jgetD rf "media_type" .null) (.str media_type)
          else jgetD rf "media_type" .null),
        ("title", pyOr (jgetD rf "title" .null) (jgetD rf "name" .null)),
        ("release_date",
          pyOr (pyOr (jgetD rf "release_date" .null) (jgetD rf "first_air_date" .null)) (.str "")),
        ("poster_path", jgetD rf "poster_path" .null),
        ("poster", poster),
        ("popularity", jgetD rf "popularity" .null),
        ("vote_average", jgetD rf "vote_average" .null),
        ("raw", r)])
  | _ => .error .attributeError

/-- The `get_trending` normalization loop, in provider order. -/
def trendingFold (media_type : String) : List JValue → Except PyError (List JValue)
  | [] => .ok []
  | r :: rest =>
    match trendingItem media_type r with
    | .error e => .error e
    | .ok item =>
      match trendingFold media_type rest with
      | .error e => .error e
      | .ok items => .ok (item :: items)

/-- `get_trending(media_type, time_window, page)`: validate both enum
arguments (raising `ValueError` before any request), then fetch
`/trending/{media_type}/{time_window}` and normalize the result list. -/
def get_trending (env : Env) (media_type time_window : String) (page : Int) (s : St) :
    Except PyError (List JValue) × St :=
  if ¬ (media_type = "all" ∨ media_type = "movie" ∨ media_type = "tv") then
    (.error (.valueError "media_type must be all, movie or tv"), s)
  else if ¬ (time_window = "day" ∨ time_window = "week") then
    (.error (.valueError "time_window must be day or week"), s)
  else
    match _req env ("/trending/" ++ media_type ++ "/" ++ time_window) [("page", .num page)] s with
    | (.error e, s1) => (.error e, s1)
    | (.ok data, s1) =>
      match data with
      | .obj df =>
        match jgetD df "results" (.arr []) with
        | .arr rs =>
          match trendingFold media_type rs with
          | .error e => (.error e, s1)
          | .ok items => (.ok items, s1)
        | _ => (.error .typeError, s1)
      | _ => (.error .attributeError, s1)

/-- `_get_awards_from_omdb(imdb_id)`: `None` without an id or key (no
request); otherwise one GET to OMDb whose every failure mode (transport
error, non-200, undecodable or non-dict body) is swallowed into `None`;
on success the value of the `Awards` field (or `None` when absent). -/
def _get_awards_from_omdb (env : Env) (imdb_id : JValue) (s : St) : JValue × St :=
  if truthy imdb_id = false ∨ optStrTruthy env.omdbApiKey = false then (.null, s)
  else
    match env.omdbHttp imdb_id with
    | none => (.null, { s with log := s.log ++ ["http://www.omdbapi.com/"] })
    | some (status, body) =>
      if status ≠ 200 then (.null, { s with log := s.log ++ ["http://www.omdbapi.com/"] })
      else
        match body with
        | some (.obj jf) => (jgetD jf "Awards" .null, { s with log := s.log ++ ["http://www.omdbapi.com/"] })
        | _ => (.null, { s with log := s.log ++ ["http://www.omdbapi.com/"] })

/-- Loop body of the `genres` list comprehension
(`[g.get('name') for g in ...]`); a non-dict element raises. -/
def genreFold : List JValue → Except PyError (List JValue)
  | [] => .ok []
  | g :: rest =>
    match g with
    | .obj gf =>
      match genreFold rest with
      | .error e => .error e
      | .ok names => .ok (jgetD gf "name" .null :: names)
    | _ => .error .attributeError

/-- The normalized movie detail dict built by `get_movie_details` from
the provider record, before optional awards enrichment. -/
def movieDetailFields (df : JObj) (genres : List JValue) (ef : JObj) : JObj :=
  [("type", .str "movie"),
   ("id", jgetD df "id" .null),
   ("title", jgetD df "title" .null),
   ("overview", jgetD df "overview" .null),
   ("poster", _poster_url (jgetD df "poster_path" .null)),
   ("backdrop", _poster_url (jgetD df "backdrop_path" .null)),
   ("genres", .arr genres),
   ("runtime", jgetD df "runtime" .null),
   ("rating", jgetD df "vote_average" .null),
   ("credits", jgetD df "credits" (.obj [])),
   ("imdb_id", jgetD ef "imdb_id" .null)]

/-- `get_movie_details(tmdb_id)`: cache consult, one detail request with
credits and external ids appended, normalization, then — only when the
external id is truthy AND an OMDb key is configured — awards enrichment
whose result is stored under `awards` (possibly `None`); finally the
dict is cached and returned. -/
def get_movie_details (env : Env) (tmdb_id : Int) (s : St) : Except PyError JValue × St :=
  match _cache_get ("movie:" ++ toString tmdb_id) s with
  | (.error e, s1) => (.error e, s1)
  | (.ok cached, s1) =>
    match cached with
    | .null =>
      match _req env ("/movie/" ++ toString tmdb_id)
          [("append_to_response", .str "credits,external_ids")] s1 with
      | (.error e, s2) => (.error e, s2)
      | (.ok data, s2) =>
        match data with
        | .obj df =>
          match jgetD df "genres" (.arr []) with
          | .arr gs =>
            match genreFold gs with
            | .error e => (.error e, s2)
            | .ok genres =>
              match jgetD df "external_ids" (.obj []) with
              | .obj ef =>
                if truthy (jgetD ef "imdb_id" .null) ∧ optStrTruthy env.omdbApiKey then
                  match _get_awards_from_omdb env (jgetD ef "imdb_id" .null) s2 with
                  | (aw, s3) =>
                    (.ok (.obj (jset (movieDetailFields df genres ef) "awards" aw)),
                      _cache_set ("movie:" ++ toString tmdb_id)
                        (.obj (jset (movieDetailFields df genres ef) "awards" aw)) CACHE_TTL s3)
                else
                  (.ok (.obj (movieDetailFields df genres ef)),
                    _cache_set ("movie:" ++ toString tmdb_id)
                      (.obj (movieDetailFields df genres ef)) CACHE_TTL s2)
              | _ => (.error .attributeError, s2)
          | _ => (.error .typeError, s2)
        | _ => (.error .attributeError, s2)
    | v => (.ok v, s1)

/-! ## Auth and watchlist client (`firebase_auth.py`) -/

/-- `str.rstrip("/")` as used by the client constructor. -/
def rstripSlashes (s : String) : String :=
  String.mk (s.toList.reverse.dropWhile (fun c => c = '/')).reverse

/-- `FirebaseAuthClient.__init__`. -/
def mkFbClient (api_key db_url : String) : FbClient :=
  ⟨api_key, rstripSlashes db_url, none⟩

/-- `self.id_token`: `None` without a session, else
`self.user.get("idToken")` (which needs the stored payload to be a
dict). -/
def idTokenE (c : FbClient) : Except PyError JValue :=
  match c.user with
  | none => .ok .null
  | some (.obj u) => .ok (jgetD u "idToken" .null)
  | some _ => .error .attributeError

/-- `self.user_id`: `None` without a session, else
`self.user.get("localId")`. -/
def userIdE (c : FbClient) : Except PyError JValue :=
  match c.user with
  | none => .ok .null
  | some (.obj u) => .ok (jgetD u "localId" .null)
  | some _ => .error .attributeError

/-- `self._user_path(path)`. -/
def _user_path (c : FbClient) (path : String) : Except PyError String :=
  match userIdE c with
  | .error e => .error e
  | .ok uid =>
    if truthy uid = false then .error (.firebaseAuthError (.str "No authenticated user"))
    else .ok (c.db_url ++ "/users/" ++ pyStr uid ++ "/" ++ path ++ ".json")

/-- The sign-in endpoint url. -/
def signInUrl (api_key : String) : String :=
  "https://identitytoolkit.googleapis.com/v1/accounts:signInWithPassword?key=" ++ api_key

/-- The sign-in request payload. -/
def signInPayload (email password : String) : JObj :=
  [("email", .str email), ("password", .str password), ("returnSecureToken", .bool true)]

/-- `sign_in(email, password)`: POST the credentials; on a non-200
response raise `FirebaseAuthError` with the upstream
`error.message` (default `Sign in failed`) and leave `self.user`
untouched; on 200 store the payload as the session and return it. -/
def sign_in (env : Env) (email password : String) (s : St) : Except PyError JValue × St :=
  match env.fbPost (signInUrl s.fb.api_key) (signInPayload email password) with
  | none => (.error .requestException, { s with log := s.log ++ [signInUrl s.fb.api_key] })
  | some (status, body) =>
    match body with
    | none => (.error .jsonDecodeError, { s with log := s.log ++ [signInUrl s.fb.api_key] })
    | some data =>
      if status ≠ 200 then
        match data with
        | .obj df =>
          match jgetD df "error" (.obj []) with
          | .obj ef =>
            (.error (.firebaseAuthError (jgetD ef "message" (.str "Sign in failed"))),
              { s with log := s.log ++ [signInUrl s.fb.api_key] })
          | _ => (.error .attributeError, { s with log := s.log ++ [signInUrl s.fb.api_key] })
        | _ => (.error .attributeError, { s with log := s.log ++ [signInUrl s.fb.api_key] })
      else
        (.ok data,
          { s with log := s.log ++ [signInUrl s.fb.api_key],
                   fb := { s.fb with user := some data } })

/-- `add_to_watchlist(imdb_id, movie_data)`: fail with a typed
not-authenticated error before any request when no id token is held;
else PUT the record and raise unless the status is 200 or 204. -/
def add_to_watchlist (env : Env) (imdb_id : String) (movie_data : JValue) (s : St) :
    Except PyError JValue × St :=
  match idTokenE s.fb with
  | .error e => (.error e, s)
  | .ok tok =>
    if truthy tok = false then (.error (.firebaseAuthError (.str "User not authenticated")), s)
    else
      match _user_path s.fb ("watchlist/" ++ imdb_id) with
      | .error e => (.error e, s)
      | .ok up =>
        match env.fbPut (up ++ "?auth=" ++ pyStr tok) movie_data with
        | none => (.error .requestException, { s with log := s.log ++ [up ++ "?auth=" ++ pyStr tok] })
        | some (status, _body) =>
          if status = 200 ∨ status = 204 then (.ok .null, { s with log := s.log ++ [up ++ "?auth=" ++ pyStr tok] })
          else (.error (.firebaseAuthError (.str "Failed to save to watchlist")),
            { s with log := s.log ++ [up ++ "?auth=" ++ pyStr tok] })

/-- `get_watchlist()`: fail with a typed not-authenticated error before
any request when no id token is held; else GET the watchlist document,
raise on a non-200 status, and return `data or {}`. -/
def get_watchlist (env : Env) (s : St) : Except PyError JValue × St :=
  match idTokenE s.fb with
  | .error e => (.error e, s)
  | .ok tok =>
    if truthy tok = false then (.error (.firebaseAuthError (.str "User not authenticated")), s)
    else
      match _user_path s.fb "watchlist" with
      | .error e => (.error e, s)
      | .ok up =>
        match env.fbGet (up ++ "?auth=" ++ pyStr tok) with
        | none => (.error .requestException, { s with log := s.log ++ [up ++ "?auth=" ++ pyStr tok] })
        | some (status, body) =>
          if status ≠ 200 then
            (.error (.firebaseAuthError (.str "Failed to fetch watchlist")),
              { s with log := s.log ++ [up ++ "?auth=" ++ pyStr tok] })
          else
            match body with
            | none => (.error .jsonDecodeError, { s with log := s.log ++ [up ++ "?auth=" ++ pyStr tok] })
            | some data => (.ok (pyOr data (.obj [])), { s with log := s.log ++ [up ++ "?auth=" ++ pyStr tok] })

/-! ## Configuration loading (`config.py`, the import fallback of
`tmdb_client.py`, and `ai_client.is_enabled`) -/

/-- The process environment (`os.getenv`), after `.env` loading. -/
structure OsEnv where
  getenv : String → Option String

/-- `config._get(name, required, default)`: raise `ConfigError` when a
required variable is absent or empty. -/
def _get (env : OsEnv) (name : String) (required : Bool) (default : Option String) :
    Except PyError (Option String) :=
  if required && !optStrTruthy ((env.getenv name).or default) then
    .error (.configError ("Missing required environment variable: " ++ name))
  else .ok ((env.getenv name).or default)

/-- The module-level bindings of `config.py`. Note that `config.py`
defines NO metadata-provider (TMDB) key. -/
structure AppConfig where
  OMDB_API_KEY : Option String
  FIREBASE_API_KEY : Option String
  FIREBASE_DB_URL : Option String
  PERPLEXITY_API_KEY : Option String

/-- Import-time evaluation of `config.py`: the three required keys in
order, then the optional Perplexity key. -/
def loadConfig (env : OsEnv) : Except PyError AppConfig := do
  let omdb ← _get env "OMDB_API_KEY" true none
  let fbKey ← _get env "FIREBASE_API_KEY" true none
  let fbUrl ← _get env "FIREBASE_DB_URL" true none
  let pplx ← _get env "PERPLEXITY_API_KEY" false none
  return ⟨omdb, fbKey, fbUrl, pplx⟩

/-- The module-level values available after a successful startup. -/
structure AppBoot where
  cfg : AppConfig
  tmdbApiKey : Option String
  omdbKeyInTmdbModule : Option String

/-- Application startup: `main.py` imports `ui`, which imports
`firebase_auth` and `ai_client`, both of which import `config`
unguarded, so a `ConfigError` aborts startup. `tmdb_client` wraps
`from config import TMDB_API_KEY, BASE_DIR, OMDB_API_KEY` in
`try/except`; since `config.py` never defines `TMDB_API_KEY`, that
statement ALWAYS raises `ImportError` and the module falls back to reading
`TMDB_API_KEY` and `OMDB_API_KEY` straight from the environment, so a
missing TMDB key is never checked at startup. -/
def startup (env : OsEnv) : Except PyError AppBoot :=
  match loadConfig env with
  | .error e => .error e
  | .ok cfg => .ok ⟨cfg, env.getenv "TMDB_API_KEY", env.getenv "OMDB_API_KEY"⟩

/-- `ai_client.is_enabled()`. -/
def is_enabled (key : Option String) : Bool :=
  match key with
  | none => false
  | some s => s.trim ≠ ""

/-! ## Concrete fixtures used by counterexamples and witnesses -/

/-- Empty client object used to populate concrete states. -/
def fb0 : FbClient := ⟨"", "", none⟩

/-- An empty-cache starting state at time 0. -/
def st0 : St := ⟨none, 0, [], fb0⟩

/-- Process environment holding the three keys `config.py` requires and
nothing else (in particular no TMDB key). -/
def osEnvNoTmdb : OsEnv :=
  ⟨fun n =>
    if n = "OMDB_API_KEY" ∨ n = "FIREBASE_API_KEY" ∨ n = "FIREBASE_DB_URL" then some "x"
    else none⟩

/-- The predicate `search_multi` filters multi-mode records with:
`it.get('media_type') in ('movie', 'tv')` on a dict record (used only
to state order preservation; non-dict records make the code raise and
never reach the filter). -/
def isMovieTv : JValue → Bool
  | .obj itf =>
    match jgetD itf "media_type" .null with
    | .str t => if t = "movie" ∨ t = "tv" then true else false
    | _ => false
  | _ => false

/-- The raw provider record retained in a normalized search item. -/
def rawOfItem : JValue → JValue
  | .obj ifs => jgetD ifs "tmdb_raw" .null
  | _ => .null

/-- Environment whose oracles never answer; adequate for claims that
issue no request. -/
def env0 : Env :=
  ⟨none, none, fun _ _ => none, fun _ => none, fun _ _ => none, fun _ => none, fun _ _ => none⟩

/-- Environment whose identity provider rejects every sign-in with an
`INVALID_PASSWORD` message. -/
def envSignInFail : Env :=
  ⟨none, none, fun _ _ => none, fun _ => none,
   fun _ _ => some (400, some (.obj [("error", .obj [("message", .str "INVALID_PASSWORD")])])),
   fun _ => none, fun _ _ => none⟩

/-- Environment whose metadata provider returns an empty result list
for every request. -/
def envSearchEmpty : Env :=
  ⟨some "K", none, fun _ _ => some (200, some (.obj [("results", .arr [])])),
   fun _ => none, fun _ _ => none, fun _ => none, fun _ _ => none⟩

/-- Environment whose metadata provider returns one bare record for
every request. -/
def envSearchTv : Env :=
  ⟨some "K", none, fun _ _ => some (200, some (.obj [("results", .arr [.obj [("id", .num 7)]])])),
   fun _ => none, fun _ _ => none, fun _ => none, fun _ _ => none⟩

/-- Environment whose combined-search endpoint returns a movie, a
person and a tv record (in that order). -/
def envMulti : Env :=
  ⟨some "K", none,
   fun _ _ => some (200, some (.obj [("results", .arr
     [.obj [("media_type", .str "movie"), ("id", .num 1)],
      .obj [("media_type", .str "person"), ("id", .num 2)],
      .obj [("media_type", .str "tv"), ("id", .num 3)]])])),
   fun _ => none, fun _ _ => none, fun _ => none, fun _ _ => none⟩

/-- Environment whose trending endpoint returns one movie record with a
poster path. -/
def envTrend : Env :=
  ⟨some "K", none,
   fun _ _ => some (200, some (.obj [("results", .arr
     [.obj [("id", .num 9), ("media_type", .str "movie"), ("poster_path", .str "/p.jpg")]])])),
   fun _ => none, fun _ _ => none, fun _ => none, fun _ _ => none⟩

/-- Environment with both provider keys configured: the metadata
provider returns a movie detail with an external id, the secondary
provider returns an awards string. -/
def envDetail : Env :=
  ⟨some "K", some "OK",
   fun _ _ => some (200, some (.obj [("id", .num 5), ("title", .str "T"),
      ("external_ids", .obj [("imdb_id", .str "tt1")])])),
   fun _ => some (200, some (.obj [("Awards", .str "Won 2 Oscars")])),
   fun _ _ => none, fun _ => none, fun _ _ => none⟩

/-- The same environment with the secondary-provider key absent. -/
def envDetailNoKey : Env :=
  ⟨some "K", none,
   fun _ _ => some (200, some (.obj [("id", .num 5), ("title", .str "T"),
      ("external_ids", .obj [("imdb_id", .str "tt1")])])),
   fun _ => some (200, some (.obj [("Awards", .str "Won 2 Oscars")])),
   fun _ _ => none, fun _ => none, fun _ _ => none⟩

/-! ## Association-list and pruning lemmas -/

theorem mem_of_jget {fs : JObj} {k : String} {e : JValue} (h : jget fs k = some e) :
    (k, e) ∈ fs := by
  induction fs with
  | nil => simp [jget] at h
  | cons hd tl ih =>
    obtain ⟨k', v'⟩ := hd
    by_cases hk : k' = k
    · subst hk
      simp [jget] at h
      simp [h]
    · simp [jget, hk] at h
      exact List.mem_cons_of_mem _ (ih h)

theorem jget_eq_none_of_not_mem {fs : JObj} {k : String}
    (h : k ∉ fs.map Prod.fst) : jget fs k = none := by
  induction fs with
  | nil => rfl
  | cons hd tl ih =>
    obtain ⟨k', v'⟩ := hd
    simp only [List.map_cons, List.mem_cons] at h
    push_neg at h
    simp only [jget]
    rw [if_neg fun hh => h.1 hh.symm]
    exact ih h.2

theorem jget_jset_self (fs : JObj) (k : String) (v : JValue) :
    jget (jset fs k v) k = some v := by
  induction fs with
  | nil => simp [jset, jget]
  | cons hd tl ih =>
    obtain ⟨k', v'⟩ := hd
    by_cases hk : k' = k
    · simp [jset, hk, jget]
    · simp [jset, hk, jget, ih]

theorem mem_jset {fs : JObj} {k : String} {v : JValue} {p : String × JValue}
    (h : p ∈ jset fs k v) : p ∈ fs ∨ p = (k, v) := by
  induction fs with
  | nil => simp [jset] at h; simp [h]
  | cons hd tl ih =>
    obtain ⟨k', v'⟩ := hd
    by_cases hk : k' = k <;> simp [jset, hk] at h <;>
      rcases h with h | h
    · simp [h]
    · rcases ih h with h' | h'
      · exact Or.inl (List.mem_cons_of_mem _ h')
      · exact Or.inr h'
    · simp [h]
    · rcases ih h with h' | h'
      · exact Or.inl (List.mem_cons_of_mem _ h')
      · exact Or.inr h'

theorem pruneList_sublist {now : Int} {fs kept : JObj}
    (h : pruneList now fs = some kept) : kept.Sublist fs := by
  induction fs generalizing kept with
  | nil => simp [pruneList] at h; subst h; exact List.Sublist.refl _
  | cons hd tl ih =>
    obtain ⟨k, e⟩ := hd
    simp only [pruneList] at h
    cases hek : entryKeep now e with
    | none => rw [hek] at h; cases h
    | some b =>
      rw [hek] at h
      cases b with
      | true =>
        cases hpr : pruneList now tl with
        | none => rw [hpr] at h; cases h
        | some kr =>
          rw [hpr] at h
          cases h
          exact (ih hpr).cons₂ _
      | false => exact (ih h).cons _

theorem pruneList_keep_of_mem {now : Int} {fs kept : JObj}
    (h : pruneList now fs = some kept) :
    ∀ p ∈ kept, entryKeep now p.2 = some true := by
  induction fs generalizing kept with
  | nil =>
    simp [pruneList] at h
    subst h
    intro p hp
    simp at hp
  | cons hd tl ih =>
    obtain ⟨k, e⟩ := hd
    simp only [pruneList] at h
    cases hek : entryKeep now e with
    | none => rw [hek] at h; cases h
    | some b =>
      rw [hek] at h
      cases b with
      | true =>
        cases hpr : pruneList now tl with
        | none => rw [hpr] at h; cases h
        | some kr =>
          rw [hpr] at h
          cases h
          intro p hp
          rcases List.mem_cons.mp hp with hp | hp
          · subst hp; exact hek
          · exact ih hpr p hp
      | false => exact ih h

theorem pruneList_of_all_keep {now : Int} {fs : JObj}
    (h : ∀ p ∈ fs, entryKeep now p.2 = some true) :
    pruneList now fs = some fs := by
  induction fs with
  | nil => rfl
  | cons hd tl ih =>
    obtain ⟨k, e⟩ := hd
    have hk : entryKeep now e = some true := h (k, e) (List.mem_cons_self _ _)
    have ht : pruneList now tl = some tl :=
      ih fun p hp => h p (List.mem_cons_of_mem _ hp)
    simp only [pruneList, hk, ht]

theorem pruneList_eq_of_length {now : Int} {fs kept : JObj}
    (h : pruneList now fs = some kept) (hl : kept.length = fs.length) :
    kept = fs :=
  (pruneList_sublist h).eq_of_length hl

theorem pruneList_jget_none {now : Int} {fs kept : JObj} {k : String} {e : JValue}
    (h : pruneList now fs = some kept) (hk : jget fs k = some e)
    (he : entryKeep now e = some false) (hnd : (fs.map Prod.fst).Nodup) :
    jget kept k = none := by
  induction fs generalizing kept with
  | nil => simp [jget] at hk
  | cons hd tl ih =>
    obtain ⟨k', e'⟩ := hd
    simp only [pruneList] at h
    rw [List.map_cons, List.nodup_cons] at hnd
    by_cases hkk : k' = k
    · subst hkk
      simp [jget] at hk
      subst hk
      rw [he] at h
      have hsub : kept.Sublist tl := pruneList_sublist h
      refine jget_eq_none_of_not_mem fun hmem => hnd.1 ?_
      exact (hsub.map Prod.fst).subset hmem
    · simp [jget, hkk] at hk
      cases hek : entryKeep now e' with
      | none => rw [hek] at h; cases h
      | some b =>
        rw [hek] at h
        cases b with
        | true =>
          cases hpr : pruneList now tl with
          | none => rw [hpr] at h; cases h
          | some kr =>
            rw [hpr] at h
            cases h
            simp [jget, hkk]
            exact ih hpr hk hnd.2
        | false => exact ih h hk hnd.2

theorem pruneList_jget_keep {now : Int} {fs kept : JObj} {k : String} {e : JValue}
    (h : pruneList now fs = some kept) (hk : jget fs k = some e)
    (he : entryKeep now e = some true) :
    jget kept k = some e := by
  induction fs generalizing kept with
  | nil => simp [jget] at hk
  | cons hd tl ih =>
    obtain ⟨k', e'⟩ := hd
    simp only [pruneList] at h
    by_cases hkk : k' = k
    · subst hkk
      simp [jget] at hk
      subst hk
      rw [he] at h
      cases hpr : pruneList now tl with
      | none => rw [hpr] at h; cases h
      | some kr =>
        rw [hpr] at h
        cases h
        simp [jget]
    · simp [jget, hkk] at hk
      cases hek : entryKeep now e' with
      | none => rw [hek] at h; cases h
      | some b =>
        rw [hek] at h
        cases b with
        | true =>
          cases hpr : pruneList now tl with
          | none => rw [hpr] at h; cases h
          | some kr =>
            rw [hpr] at h
            cases h
            simp [jget, hkk]
            exact ih hpr hk
        | false => exact ih h hk

theorem load_cache_all_keep (s : St) :
    ∀ p ∈ (_load_cache s).1, entryKeep s.now p.2 = some true := by
  intro p hp
  unfold _load_cache at hp
  cases hcf : s.cacheFile with
  | none => rw [hcf] at hp; simp at hp
  | some v =>
    rw [hcf] at hp
    cases v with
    | obj fs =>
      dsimp only at hp
      cases hpr : pruneList s.now fs with
      | none => rw [hpr] at hp; simp at hp
      | some kept =>
        rw [hpr] at hp
        dsimp only at hp
        by_cases hl : kept.length = fs.length
        · rw [if_pos hl] at hp
          dsimp only at hp
          have := pruneList_eq_of_length hpr hl
          subst this
          exact pruneList_keep_of_mem hpr p hp
        · rw [if_neg hl] at hp
          dsimp only at hp
          exact pruneList_keep_of_mem hpr p hp
    | null => simp at hp
    | bool b => simp at hp
    | num n => simp at hp
    | str s' => simp at hp
    | arr xs => simp at hp

theorem load_cache_now (s : St) : (_load_cache s).2.now = s.now := by
  unfold _load_cache
  cases hcf : s.cacheFile with
  | none => rfl
  | some v =>
    cases v with
    | obj fs =>
      dsimp only
      cases hpr : pruneList s.now fs with
      | none => rfl
      | some kept =>
        dsimp only
        by_cases hl : kept.length = fs.length
        · rw [if_pos hl]
        · rw [if_neg hl]
    | null => rfl
    | bool b => rfl
    | num n => rfl
    | str s' => rfl
    | arr xs => rfl

/-- Helper for the round-trip claims: after `_cache_set key v ttl` with a
nonnegative ttl and no time passing, `_cache_get key` returns `v` and
leaves the store untouched. -/
theorem cache_roundtrip_aux (s : St) (key : String) (v : JValue) (ttl : Int)
    (h : 0 ≤ ttl) :
    _cache_get key (_cache_set key v ttl s) = (.ok v, _cache_set key v ttl s) := by
  rcases hload : _load_cache s with ⟨c, s1⟩
  have hnow : s1.now = s.now := by
    have := load_cache_now s; rw [hload] at this; exact this
  set e : JValue := .obj [("ts", .num s1.now), ("ttl", .num ttl), ("value", v)] with he
  have hset : _cache_set key v ttl s = { s1 with cacheFile := some (.obj (jset c key e)) } := by
    unfold _cache_set
    rw [hload]
    dsimp only
    unfold _save_cache
    rw [← he]
  have hkeepe : entryKeep s1.now e = some true := by
    have hlt : ¬ (s1.now + ttl < s1.now) := by omega
    simp [he, entryKeep, truthy, asNum, jgetD, jget, hlt]
  have hallkeep : ∀ p ∈ jset c key e, entryKeep s1.now p.2 = some true := by
    intro p hp
    rcases mem_jset hp with hp | hp
    · have := load_cache_all_keep s
      rw [hload] at this
      rw [hnow]
      exact this p hp
    · subst hp; exact hkeepe
  have hprune : pruneList s1.now (jset c key e) = some (jset c key e) :=
    pruneList_of_all_keep hallkeep
  rw [hset]
  unfold _cache_get _load_cache
  dsimp only
  rw [hprune]
  dsimp only
  rw [if_pos rfl]
  dsimp only
  rw [jget_jset_self]
  dsimp only
  rw [if_neg (by simp [he, truthy])]
  simp [he, jgetD, jget]

/-! ## Claims C1, C2, C10 -/

/-- C1 (amended): for every key, every value and every NONNEGATIVE ttl,
`_cache_set` then `_cache_get` with the same key returns the stored
value unchanged, with no time passing and no I/O failure in between.
(The original claim, quantified over every ttl, fails for negative
ttls: the entry is already expired when `_cache_get` loads the store.) -/
theorem cache_set_get_roundtrip (s : St) (key : String) (v : JValue) (ttl : Int)
    (h : 0 ≤ ttl) :
    _cache_get key (_cache_set key v ttl s) = (.ok v, _cache_set key v ttl s) :=
  cache_roundtrip_aux s key v ttl h

/-- Witness for `cache_set_get_roundtrip` at a concrete input. -/
theorem cache_set_get_roundtrip_witness :
    _cache_get "k" (_cache_set "k" (.str "v") 7 ⟨none, 0, [], fb0⟩) =
      (.ok (.str "v"), _cache_set "k" (.str "v") 7 ⟨none, 0, [], fb0⟩) :=
  cache_set_get_roundtrip ⟨none, 0, [], fb0⟩ "k" (.str "v") 7 (by norm_num)

/-- C1 counterexample: with ttl `-1` the freshly set entry is pruned by
the very next load, so `_cache_get` reports absent (`null`) instead of
returning the stored value `"v"`, refuting the claim as stated for
arbitrary ttl. -/
theorem cache_roundtrip_negative_ttl_cex :
    (_cache_get "k" (_cache_set "k" (.str "v") (-1) ⟨none, 0, [], fb0⟩)).1 = .ok .null ∧
    JValue.null ≠ JValue.str "v" :=
  ⟨rfl, by simp⟩

/-- C2 (amended): the code treats an entry as valid iff
`now ≤ timestamp + ttl` (it is dropped iff `timestamp + ttl < now`; at
`now = timestamp + ttl` the entry is still served). For every well-typed
entry (a truthy dict with numeric `ts`/`ttl`) in a store whose pruning
pass raises no type error and whose keys are unique: if
`ts + ttl < now` at read time then `_cache_get` reports absent, the
entry is removed from the persisted store, and a subsequent load no
longer contains it (idempotent pruning); if `now ≤ ts + ttl` the entry
survives and `_cache_get` returns its stored value. -/
theorem cache_expiry_pruning (s : St) (fs kept efs : JObj) (key : String) (ts ttl : Int)
    (hfile : s.cacheFile = some (.obj fs))
    (hprune : pruneList s.now fs = some kept)
    (hk : jget fs key = some (.obj efs))
    (htr : truthy (.obj efs) = true)
    (hts : asNum (jgetD efs "ts" (.num 0)) = some ts)
    (httl : asNum (jgetD efs "ttl" (.num CACHE_TTL)) = some ttl)
    (hnd : (fs.map Prod.fst).Nodup) :
    (ts + ttl < s.now →
      _cache_get key s = (.ok .null, { s with cacheFile := some (.obj kept) }) ∧
      jget kept key = none ∧
      jget (_load_cache { s with cacheFile := some (.obj kept) }).1 key = none) ∧
    (s.now ≤ ts + ttl →
      (_cache_get key s).1 = .ok (jgetD efs "value" .null)) := by
  constructor
  · intro hexp
    have hkeep : entryKeep s.now (.obj efs) = some false := by
      simp [entryKeep, htr, hts, httl, hexp]
    have hlen : kept.length ≠ fs.length := by
      intro hl
      have heq := pruneList_eq_of_length hprune hl
      subst heq
      have := pruneList_keep_of_mem hprune (key, .obj efs) (mem_of_jget hk)
      rw [hkeep] at this
      cases this
    have hnone : jget kept key = none := pruneList_jget_none hprune hk hkeep hnd
    have hload : _load_cache s = (kept, { s with cacheFile := some (.obj kept) }) := by
      unfold _load_cache
      rw [hfile]
      dsimp only
      rw [hprune]
      dsimp only
      rw [if_neg hlen]
    have hallkeep : ∀ p ∈ kept, entryKeep s.now p.2 = some true :=
      pruneList_keep_of_mem hprune
    refine ⟨?_, hnone, ?_⟩
    · unfold _cache_get
      rw [hload]
      dsimp only
      rw [hnone]
    · unfold _load_cache
      dsimp only
      rw [pruneList_of_all_keep hallkeep]
      dsimp only
      rw [if_pos rfl]
      exact hnone
  · intro hval
    have hkeep : entryKeep s.now (.obj efs) = some true := by
      have hlt : ¬ (ts + ttl < s.now) := by omega
      simp [entryKeep, htr, hts, httl, hlt]
    have hkept : jget kept key = some (.obj efs) :=
      pruneList_jget_keep hprune hk hkeep
    unfold _cache_get _load_cache
    rw [hfile]
    dsimp only
    rw [hprune]
    dsimp only
    by_cases hl : kept.length = fs.length
    · rw [if_pos hl]
      dsimp only
      rw [hk]
      dsimp only
      rw [if_neg (by simp [htr])]
    · rw [if_neg hl]
      dsimp only
      rw [hkept]
      dsimp only
      rw [if_neg (by simp [htr])]

/-- Witness for `cache_expiry_pruning`: a store holding one fresh and
one expired entry at time 100. -/
theorem cache_expiry_pruning_witness :
    (_cache_get "old" ⟨some (.obj [("old", .obj [("ts", .num 0), ("ttl", .num 10), ("value", .str "stale")]), ("new", .obj [("ts", .num 95), ("ttl", .num 3600), ("value", .str "fresh")])]), 100, [], fb0⟩ =
      (.ok .null, ⟨some (.obj [("new", .obj [("ts", .num 95), ("ttl", .num 3600), ("value", .str "fresh")])]), 100, [], fb0⟩)) ∧
    jget [("new", .obj [("ts", .num 95), ("ttl", .num 3600), ("value", .str "fresh")])] "old" = none := by
  have h := cache_expiry_pruning
    ⟨some (.obj [("old", .obj [("ts", .num 0), ("ttl", .num 10), ("value", .str "stale")]), ("new", .obj [("ts", .num 95), ("ttl", .num 3600), ("value", .str "fresh")])]), 100, [], fb0⟩
    [("old", .obj [("ts", .num 0), ("ttl", .num 10), ("value", .str "stale")]), ("new", .obj [("ts", .num 95), ("ttl", .num 3600), ("value", .str "fresh")])]
    [("new", .obj [("ts", .num 95), ("ttl", .num 3600), ("value", .str "fresh")])]
    [("ts", .num 0), ("ttl", .num 10), ("value", .str "stale")]
    "old" 0 10 rfl rfl rfl rfl rfl rfl (by simp)
  obtain ⟨h1, h2, h3⟩ := h.1 (by norm_num)
  exact ⟨h1, h2⟩

/-- C2 counterexample for the claim as stated: at exactly
`now = timestamp + ttl` the spec calls the entry invalid
(`now < ts + ttl` is false) yet `_cache_get` still returns the stored
value, so validity in the code is `now ≤ ts + ttl`, not
`now < ts + ttl`. -/
theorem cache_validity_boundary_cex :
    (_cache_get "k" ⟨some (.obj [("k", .obj [("ts", .num 0), ("ttl", .num 10), ("value", .str "v")])]), 10, [], fb0⟩).1
      = .ok (.str "v") ∧ ¬ ((10 : Int) < 0 + 10) :=
  ⟨rfl, by norm_num⟩

/-- C10: storing the value `None` (JSON null) round-trips to the absent
sentinel: after `_cache_set key null`, `_cache_get key` returns `null`,
which is exactly what `_cache_get` returns for a key that was never set
(second conjunct, empty store), so callers cannot distinguish a cached
null from a cache miss. -/
theorem cache_none_indistinguishable (s : St) (key : String) :
    (_cache_get key (_cache_set key .null CACHE_TTL s)).1 = .ok .null ∧
    (_cache_get key ⟨none, s.now, s.log, s.fb⟩).1 = .ok .null := by
  constructor
  · rw [cache_roundtrip_aux s key .null CACHE_TTL (by norm_num [CACHE_TTL])]
  · rfl

/-- Witness for `cache_none_indistinguishable` at a concrete input. -/
theorem cache_none_indistinguishable_witness :
    (_cache_get "k" (_cache_set "k" .null CACHE_TTL ⟨none, 0, [], fb0⟩)).1 = .ok .null ∧
    (_cache_get "k" ⟨none, 0, [], fb0⟩).1 = .ok .null :=
  cache_none_indistinguishable ⟨none, 0, [], fb0⟩ "k"

/-! ## Configuration lemmas and claim C7 -/

theorem _get_required_missing {env : OsEnv} {name : String}
    (h : optStrTruthy (env.getenv name) = false) :
    _get env name true none =
      .error (.configError ("Missing required environment variable: " ++ name)) := by
  unfold _get
  rw [Option.or_none, h]
  rfl

theorem _get_required_present {env : OsEnv} {name : String}
    (h : optStrTruthy (env.getenv name) = true) :
    _get env name true none = .ok (env.getenv name) := by
  unfold _get
  rw [Option.or_none, h]
  rfl

theorem _get_optional (env : OsEnv) (name : String) :
    _get env name false none = .ok (env.getenv name) := by
  unfold _get
  rw [Option.or_none]
  rfl

theorem except_bind_error {α β : Type} (e : PyError) (f : α → Except PyError β) :
    (Except.error e >>= f) = Except.error e := rfl

theorem except_bind_ok {α β : Type} (a : α) (f : α → Except PyError β) :
    (Except.ok a >>= f) = f a := rfl

theorem loadConfig_ok {env : OsEnv}
    (h1 : optStrTruthy (env.getenv "OMDB_API_KEY") = true)
    (h2 : optStrTruthy (env.getenv "FIREBASE_API_KEY") = true)
    (h3 : optStrTruthy (env.getenv "FIREBASE_DB_URL") = true) :
    loadConfig env = .ok ⟨env.getenv "OMDB_API_KEY", env.getenv "FIREBASE_API_KEY",
      env.getenv "FIREBASE_DB_URL", env.getenv "PERPLEXITY_API_KEY"⟩ := by
  unfold loadConfig
  rw [_get_required_present h1, except_bind_ok]
  rw [_get_required_present h2, except_bind_ok]
  rw [_get_required_present h3, except_bind_ok]
  rw [_get_optional, except_bind_ok]
  rfl

/-- C7 (amended): absence (or emptiness) of the secondary-provider key
`OMDB_API_KEY`, the identity-provider key `FIREBASE_API_KEY` or the
database base url `FIREBASE_DB_URL` fails application startup with a
`ConfigError`; when those three are present startup SUCCEEDS regardless
of the metadata-provider key `TMDB_API_KEY` (which `config.py` never
defines — the metadata client falls back to reading the environment and
every metadata request then fails at call time with `TMDbError`);
absence of the optional `PERPLEXITY_API_KEY` only disables the AI
feature. The original claim that a missing metadata-provider key fails
startup is refuted by `startup_missing_tmdb_key_cex`. -/
theorem startup_required_keys (env : OsEnv) :
    (optStrTruthy (env.getenv "OMDB_API_KEY") = false →
      ∃ m, startup env = .error (.configError m)) ∧
    (optStrTruthy (env.getenv "FIREBASE_API_KEY") = false →
      ∃ m, startup env = .error (.configError m)) ∧
    (optStrTruthy (env.getenv "FIREBASE_DB_URL") = false →
      ∃ m, startup env = .error (.configError m)) ∧
    (optStrTruthy (env.getenv "OMDB_API_KEY") = true →
     optStrTruthy (env.getenv "FIREBASE_API_KEY") = true →
     optStrTruthy (env.getenv "FIREBASE_DB_URL") = true →
      startup env = .ok ⟨⟨env.getenv "OMDB_API_KEY", env.getenv "FIREBASE_API_KEY",
        env.getenv "FIREBASE_DB_URL", env.getenv "PERPLEXITY_API_KEY"⟩,
        env.getenv "TMDB_API_KEY", env.getenv "OMDB_API_KEY"⟩) ∧
    (env.getenv "PERPLEXITY_API_KEY" = none →
      is_enabled (env.getenv "PERPLEXITY_API_KEY") = false) ∧
    (∀ (e : Env) (path : String) (params : JObj) (s : St), e.tmdbApiKey = none →
      _req e path params s = (.error (.tmdbError "TMDB_API_KEY not set"), s)) := by
  refine ⟨?_, ?_, ?_, ?_, ?_, ?_⟩
  · intro h
    refine ⟨"Missing required environment variable: OMDB_API_KEY", ?_⟩
    unfold startup loadConfig
    rw [_get_required_missing h, except_bind_error]
    rfl
  · intro h
    cases h1 : optStrTruthy (env.getenv "OMDB_API_KEY") with
    | false =>
      refine ⟨"Missing required environment variable: OMDB_API_KEY", ?_⟩
      unfold startup loadConfig
      rw [_get_required_missing h1, except_bind_error]
      rfl
    | true =>
      refine ⟨"Missing required environment variable: FIREBASE_API_KEY", ?_⟩
      unfold startup loadConfig
      rw [_get_required_present h1, except_bind_ok, _get_required_missing h, except_bind_error]
      rfl
  · intro h
    cases h1 : optStrTruthy (env.getenv "OMDB_API_KEY") with
    | false =>
      refine ⟨"Missing required environment variable: OMDB_API_KEY", ?_⟩
      unfold startup loadConfig
      rw [_get_required_missing h1, except_bind_error]
      rfl
    | true =>
      cases h2 : optStrTruthy (env.getenv "FIREBASE_API_KEY") with
      | false =>
        refine ⟨"Missing required environment variable: FIREBASE_API_KEY", ?_⟩
        unfold startup loadConfig
        rw [_get_required_present h1, except_bind_ok, _get_required_missing h2, except_bind_error]
        rfl
      | true =>
        refine ⟨"Missing required environment variable: FIREBASE_DB_URL", ?_⟩
        unfold startup loadConfig
        rw [_get_required_present h1, except_bind_ok, _get_required_present h2, except_bind_ok,
          _get_required_missing h, except_bind_error]
        rfl
  · intro h1 h2 h3
    unfold startup
    rw [loadConfig_ok h1 h2 h3]
  · intro h
    rw [h]
    rfl
  · intro e path params s h
    unfold _req
    rw [h]

/-- Witness for `startup_required_keys`: an environment holding only the
identity key and database url fails on the missing OMDB key, and the
full `osEnvNoTmdb` environment boots. -/
theorem startup_required_keys_witness :
    (∃ m, startup ⟨fun n => if n = "FIREBASE_API_KEY" ∨ n = "FIREBASE_DB_URL" then some "x" else none⟩ =
      .error (.configError m)) ∧
    startup osEnvNoTmdb = .ok ⟨⟨some "x", some "x", some "x", none⟩, none, some "x"⟩ := by
  constructor
  · exact (startup_required_keys ⟨fun n => if n = "FIREBASE_API_KEY" ∨ n = "FIREBASE_DB_URL" then some "x" else none⟩).1 rfl
  · exact (startup_required_keys osEnvNoTmdb).2.2.2.1 rfl rfl rfl

/-- C7 counterexample: with the three keys `config.py` requires present
but NO metadata-provider key in the environment, startup succeeds
(returning a boot record whose TMDB key is `none`), refuting the claim
that absence of the metadata-provider key fails application startup. -/
theorem startup_missing_tmdb_key_cex :
    osEnvNoTmdb.getenv "TMDB_API_KEY" = none ∧
    startup osEnvNoTmdb = .ok ⟨⟨some "x", some "x", some "x", none⟩, none, some "x"⟩ :=
  ⟨rfl, rfl⟩

/-! ## Claims C5 and C9 (auth client) -/

/-- C5: with no live session (`self.user is None`, hence no id token),
both `get_watchlist` and `add_to_watchlist` fail with the typed
`FirebaseAuthError("User not authenticated")` and leave the state —
including the request log — untouched, i.e. no HTTP request is issued. -/
theorem watchlist_requires_auth (env : Env) (s : St) (imdb_id : String)
    (movie_data : JValue) (huser : s.fb.user = none) :
    get_watchlist env s = (.error (.firebaseAuthError (.str "User not authenticated")), s) ∧
    add_to_watchlist env imdb_id movie_data s =
      (.error (.firebaseAuthError (.str "User not authenticated")), s) := by
  have htok : idTokenE s.fb = .ok .null := by
    unfold idTokenE
    rw [huser]
  constructor
  · unfold get_watchlist
    rw [htok]
    dsimp only
    rw [if_pos (show truthy JValue.null = false from rfl)]
  · unfold add_to_watchlist
    rw [htok]
    dsimp only
    rw [if_pos (show truthy JValue.null = false from rfl)]


/-- Witness for `watchlist_requires_auth` at a concrete input. -/
theorem watchlist_requires_auth_witness :
    get_watchlist env0 st0 = (.error (.firebaseAuthError (.str "User not authenticated")), st0) ∧
    add_to_watchlist env0 "tt0111161" (.obj [("title", .str "x")]) st0 =
      (.error (.firebaseAuthError (.str "User not authenticated")), st0) :=
  watchlist_requires_auth env0 st0 "tt0111161" (.obj [("title", .str "x")]) rfl

/-- C9: when the provider answers a sign-in POST with a non-200 JSON
response, `sign_in` raises `FirebaseAuthError` carrying the upstream
`error.message` value (falling back to the literal `Sign in failed`
exactly when that field is absent, which is what
`jgetD ef "message" (.str "Sign in failed")` computes), and the stored
session is left unset: the final state differs from the initial one
only by the logged request, so `fb.user` is unchanged. -/
theorem sign_in_error_message (env : Env) (s : St) (email password : String)
    (status : Int) (df ef : JObj)
    (hresp : env.fbPost (signInUrl s.fb.api_key) (signInPayload email password) =
      some (status, some (.obj df)))
    (hstatus : status ≠ 200)
    (herr : jgetD df "error" (.obj []) = .obj ef) :
    sign_in env email password s =
      (.error (.firebaseAuthError (jgetD ef "message" (.str "Sign in failed"))),
        { s with log := s.log ++ [signInUrl s.fb.api_key] }) := by
  simp only [sign_in, hresp]
  rw [if_pos hstatus]
  rw [herr]


/-- Witness for `sign_in_error_message` at a concrete input. -/
theorem sign_in_error_message_witness :
    sign_in envSignInFail "user@example.com" "pw" st0 =
      (.error (.firebaseAuthError (.str "INVALID_PASSWORD")),
        { st0 with log := [signInUrl ""] }) := by
  have h := sign_in_error_message envSignInFail st0 "user@example.com" "pw" 400
    [("error", .obj [("message", .str "INVALID_PASSWORD")])]
    [("message", .str "INVALID_PASSWORD")] rfl (by norm_num) rfl
  exact h

/-! ## Search lemmas and claims C8 and C4 -/

theorem cache_get_empty (key : String) (s : St) (h : s.cacheFile = none) :
    _cache_get key s = (.ok .null, s) := by
  unfold _cache_get _load_cache
  rw [h]
  rfl

theorem load_cache_log (s : St) : (_load_cache s).2.log = s.log := by
  unfold _load_cache
  cases hcf : s.cacheFile with
  | none => rfl
  | some v =>
    cases v with
    | obj fs =>
      dsimp only
      cases hpr : pruneList s.now fs with
      | none => rfl
      | some kept =>
        dsimp only
        by_cases hl : kept.length = fs.length
        · rw [if_pos hl]
        · rw [if_neg hl]
    | null => rfl
    | bool b => rfl
    | num n => rfl
    | str s' => rfl
    | arr xs => rfl

theorem cache_set_log (key : String) (v : JValue) (ttl : Int) (s : St) :
    (_cache_set key v ttl s).log = s.log := by
  unfold _cache_set
  rcases hl : _load_cache s with ⟨c, s1⟩
  dsimp only
  unfold _save_cache
  have := load_cache_log s
  rw [hl] at this
  exact this

theorem singleFold_type {kind : String} {its results : List JValue}
    (h : singleFold kind its = .ok results) :
    ∀ item ∈ results, ∃ ifs, item = .obj ifs ∧ jget ifs "type" = some (.str kind) := by
  induction its generalizing results with
  | nil =>
    simp [singleFold] at h
    subst h
    intro item hi
    simp at hi
  | cons it rest ih =>
    cases hsi : singleItem kind it with
    | error e => simp [singleFold, hsi] at h
    | ok item0 =>
      cases hsf : singleFold kind rest with
      | error e => simp [singleFold, hsi, hsf] at h
      | ok items0 =>
        simp only [singleFold, hsi, hsf, Except.ok.injEq] at h
        subst h
        intro item hi
        rcases List.mem_cons.mp hi with hi | hi
        · subst hi
          cases it with
          | obj itf =>
            simp only [singleItem, Except.ok.injEq] at hsi
            subst hsi
            exact ⟨_, rfl, rfl⟩
          | null => simp [singleItem] at hsi
          | bool b => simp [singleItem] at hsi
          | num n => simp [singleItem] at hsi
          | str s2 => simp [singleItem] at hsi
          | arr xs => simp [singleItem] at hsi
        · exact ih hsf item hi

/-- C8 (amended): supplying a kind outside the documented enumeration
does NOT raise an invalid-argument error: `search_multi` performs no
validation of `kind`; any kind other than `multi`/`both` is routed to
the tv search endpoint (`/search/movie` only when kind is `movie`), one
request is issued to `/search/tv`, and every returned item is tagged
with the supplied kind verbatim. The original claim is refuted by
`search_kind_not_validated_cex`. -/
theorem search_unknown_kind_routed_to_tv (env : Env) (s : St) (query kind : String)
    (page : Int) (k : String) (df : JObj) (its results : List JValue)
    (hcache : s.cacheFile = none)
    (hkind1 : kind ≠ "multi") (hkind2 : kind ≠ "both") (hkind3 : kind ≠ "movie")
    (hkey : env.tmdbApiKey = some k) (hk : k ≠ "")
    (hresp : ∀ q, env.tmdbHttp "/search/tv" q = some (200, some (.obj df)))
    (hres : jgetD df "results" (.arr []) = .arr its)
    (hfold : singleFold kind its = .ok results) :
    (search_multi env query kind page s).1 = .ok (.arr results) ∧
    (search_multi env query kind page s).2.log = s.log ++ ["/search/tv"] ∧
    ∀ item ∈ results, ∃ ifs, item = .obj ifs ∧ jget ifs "type" = some (.str kind) := by
  have hreq : _req env "/search/tv"
      [("query", .str query), ("page", .num page), ("include_adult", .bool false)] s
      = (.ok (.obj df), { s with log := s.log ++ ["/search/tv"] }) := by
    unfold _req
    rw [hkey]
    dsimp only
    rw [if_neg hk]
    rw [hresp]
    dsimp only
    rw [if_neg (by simp)]
  have hsm : search_multi env query kind page s =
      (.ok (.arr results),
        _cache_set ("search:" ++ kind ++ ":" ++ query ++ ":" ++ toString page)
          (.arr results) CACHE_TTL { s with log := s.log ++ ["/search/tv"] }) := by
    unfold search_multi
    rw [cache_get_empty _ _ hcache]
    dsimp only
    rw [if_neg (by simp [hkind1, hkind2])]
    rw [if_neg hkind3]
    rw [hreq]
    dsimp only
    rw [hres]
    dsimp only
    rw [hfold]
  refine ⟨?_, ?_, singleFold_type hfold⟩
  · rw [hsm]
  · rw [hsm]
    dsimp only
    rw [cache_set_log]



/-- Witness for `search_unknown_kind_routed_to_tv` at a concrete
input. -/
theorem search_unknown_kind_witness :
    (search_multi envSearchTv "q" "bogus" 1 st0).1 =
      .ok (.arr [.obj [("type", .str "bogus"), ("id", .num 7), ("title", .null),
        ("release_date", .null), ("overview", .null), ("poster", .null),
        ("popularity", .null), ("tmdb_raw", .obj [("id", .num 7)])]]) ∧
    (search_multi envSearchTv "q" "bogus" 1 st0).2.log = ["/search/tv"] := by
  have h := search_unknown_kind_routed_to_tv envSearchTv st0 "q" "bogus" 1 "K"
    [("results", .arr [.obj [("id", .num 7)]])] [.obj [("id", .num 7)]]
    [.obj [("type", .str "bogus"), ("id", .num 7), ("title", .null),
      ("release_date", .null), ("overview", .null), ("poster", .null),
      ("popularity", .null), ("tmdb_raw", .obj [("id", .num 7)])]]
    rfl (by decide) (by decide) (by decide) rfl (by decide) (fun q => rfl) rfl rfl
  exact ⟨h.1, by simpa using h.2.1⟩

/-- C8 counterexample: calling the search operation with
kind = `bogus` (outside the enumerated set `movie`/`tv`/`multi`)
does not raise: it returns an ordinary (empty) result and the request
log shows one network call, to the substituted `/search/tv` endpoint —
refuting the claim that an InvalidArgument-style error is raised
before any network call. -/
theorem search_kind_not_validated_cex :
    (search_multi envSearchEmpty "q" "bogus" 1 st0).1 = .ok (.arr []) ∧
    (search_multi envSearchEmpty "q" "bogus" 1 st0).2.log = ["/search/tv"] :=
  ⟨rfl, rfl⟩

theorem multiFold_spec {its results : List JValue}
    (h : multiFold its = .ok results) :
    results.map rawOfItem = its.filter isMovieTv ∧
    ∀ item ∈ results, ∃ ifs, item = .obj ifs ∧
      (jget ifs "type" = some (.str "movie") ∨ jget ifs "type" = some (.str "tv")) := by
  induction its generalizing results with
  | nil =>
    simp [multiFold] at h
    subst h
    constructor
    · rfl
    · intro item hi
      simp at hi
  | cons it rest ih =>
    cases hmi : multiItem it with
    | error e => simp [multiFold, hmi] at h
    | ok oitem =>
      cases oitem with
      | none =>
        simp only [multiFold, hmi] at h
        obtain ⟨hmap, htype⟩ := ih h
        have hfalse : isMovieTv it = false := by
          cases it with
          | obj itf =>
            simp only [multiItem] at hmi
            cases hmt : jgetD itf "media_type" .null with
            | str t =>
              simp only [hmt] at hmi
              by_cases ht : t = "movie" ∨ t = "tv"
              · rw [if_pos ht] at hmi; simp at hmi
              · simp only [isMovieTv, hmt]
                rw [if_neg ht]
            | null => simp [isMovieTv, hmt]
            | bool b => simp [isMovieTv, hmt]
            | num n => simp [isMovieTv, hmt]
            | arr xs => simp [isMovieTv, hmt]
            | obj fs2 => simp [isMovieTv, hmt]
          | null => simp [multiItem] at hmi
          | bool b => simp [multiItem] at hmi
          | num n => simp [multiItem] at hmi
          | str s2 => simp [multiItem] at hmi
          | arr xs => simp [multiItem] at hmi
        constructor
        · rw [List.filter_cons_of_neg (by simp [hfalse])]
          exact hmap
        · exact htype
      | some item0 =>
        cases hmf : multiFold rest with
        | error e => simp [multiFold, hmi, hmf] at h
        | ok items0 =>
          simp only [multiFold, hmi, hmf, Except.ok.injEq] at h
          subst h
          obtain ⟨hmap, htype⟩ := ih hmf
          cases it with
          | obj itf =>
            simp only [multiItem] at hmi
            cases hmt : jgetD itf "media_type" .null with
            | str t =>
              simp only [hmt] at hmi
              by_cases ht : t = "movie" ∨ t = "tv"
              · rw [if_pos ht] at hmi
                simp only [Except.ok.injEq, Option.some.injEq] at hmi
                subst hmi
                have htrue : isMovieTv (.obj itf) = true := by
                  simp only [isMovieTv, hmt]
                  rw [if_pos ht]
                constructor
                · rw [List.filter_cons_of_pos (by simp [htrue])]
                  rw [List.map_cons, hmap]
                  rfl
                · intro item hi
                  rcases List.mem_cons.mp hi with hi | hi
                  · subst hi
                    refine ⟨_, rfl, ?_⟩
                    rcases ht with ht | ht <;> subst ht
                    · exact Or.inl rfl
                    · exact Or.inr rfl
                  · exact htype item hi
              · rw [if_neg ht] at hmi; simp at hmi
            | null => simp [hmt] at hmi
            | bool b => simp [hmt] at hmi
            | num n => simp [hmt] at hmi
            | arr xs => simp [hmt] at hmi
            | obj fs2 => simp [hmt] at hmi
          | null => simp [multiItem] at hmi
          | bool b => simp [multiItem] at hmi
          | num n => simp [multiItem] at hmi
          | str s2 => simp [multiItem] at hmi
          | arr xs => simp [multiItem] at hmi

/-- C4: in multi mode (uncached key, reachable provider), the returned
sequence consists exactly of the normalized forms of the provider
records whose `media_type` is `movie` or `tv`, in provider order: every
returned item is typed movie or tv even when the raw results contain
other media types, and mapping each item back to its retained raw
record yields precisely the movie/tv-subsequence of the provider's
result list (order preservation). -/
theorem search_multi_filters_movie_tv (env : Env) (s : St) (query : String)
    (page : Int) (k : String) (df : JObj) (its results : List JValue)
    (hcache : s.cacheFile = none)
    (hkey : env.tmdbApiKey = some k) (hk : k ≠ "")
    (hresp : ∀ q, env.tmdbHttp "/search/multi" q = some (200, some (.obj df)))
    (hres : jgetD df "results" (.arr []) = .arr its)
    (hfold : multiFold its = .ok results) :
    (search_multi env query "multi" page s).1 = .ok (.arr results) ∧
    (∀ item ∈ results, ∃ ifs, item = .obj ifs ∧
      (jget ifs "type" = some (.str "movie") ∨ jget ifs "type" = some (.str "tv"))) ∧
    results.map rawOfItem = its.filter isMovieTv := by
  have hreq : _req env "/search/multi"
      [("query", .str query), ("page", .num page), ("include_adult", .bool false)] s
      = (.ok (.obj df), { s with log := s.log ++ ["/search/multi"] }) := by
    unfold _req
    rw [hkey]
    dsimp only
    rw [if_neg hk]
    rw [hresp]
    dsimp only
    rw [if_neg (by simp)]
  have hsm : search_multi env query "multi" page s =
      (.ok (.arr results),
        _cache_set ("search:" ++ "multi" ++ ":" ++ query ++ ":" ++ toString page)
          (.arr results) CACHE_TTL { s with log := s.log ++ ["/search/multi"] }) := by
    unfold search_multi
    rw [cache_get_empty _ _ hcache]
    dsimp only
    rw [if_pos (Or.inl rfl)]
    rw [hreq]
    dsimp only
    rw [hres]
    dsimp only
    rw [hfold]
  obtain ⟨hmap, htype⟩ := multiFold_spec hfold
  exact ⟨by rw [hsm], htype, hmap⟩


/-- Witness for `search_multi_filters_movie_tv`: the person record is
dropped, the movie and tv records survive in provider order. -/
theorem search_multi_filters_movie_tv_witness :
    (search_multi envMulti "q" "multi" 1 st0).1 =
      .ok (.arr
        [.obj [("type", .str "movie"), ("id", .num 1), ("title", .null),
          ("release_date", .null), ("overview", .null), ("poster", .null),
          ("popularity", .null), ("tmdb_raw", .obj [("media_type", .str "movie"), ("id", .num 1)])],
         .obj [("type", .str "tv"), ("id", .num 3), ("title", .null),
          ("release_date", .null), ("overview", .null), ("poster", .null),
          ("popularity", .null), ("tmdb_raw", .obj [("media_type", .str "tv"), ("id", .num 3)])]]) ∧
    [.obj [("type", .str "movie"), ("id", .num 1), ("title", .null),
       ("release_date", .null), ("overview", .null), ("poster", .null),
       ("popularity", .null), ("tmdb_raw", .obj [("media_type", .str "movie"), ("id", .num 1)])],
     .obj [("type", .str "tv"), ("id", .num 3), ("title", .null),
       ("release_date", .null), ("overview", .null), ("poster", .null),
       ("popularity", .null), ("tmdb_raw", .obj [("media_type", .str "tv"), ("id", .num 3)])]].map rawOfItem
      = [.obj [("media_type", .str "movie"), ("id", .num 1)],
         .obj [("media_type", .str "person"), ("id", .num 2)],
         .obj [("media_type", .str "tv"), ("id", .num 3)]].filter isMovieTv := by
  have h := search_multi_filters_movie_tv envMulti st0 "q" 1 "K"
    [("results", .arr
      [.obj [("media_type", .str "movie"), ("id", .num 1)],
       .obj [("media_type", .str "person"), ("id", .num 2)],
       .obj [("media_type", .str "tv"), ("id", .num 3)]])]
    [.obj [("media_type", .str "movie"), ("id", .num 1)],
     .obj [("media_type", .str "person"), ("id", .num 2)],
     .obj [("media_type", .str "tv"), ("id", .num 3)]]
    [.obj [("type", .str "movie"), ("id", .num 1), ("title", .null),
       ("release_date", .null), ("overview", .null), ("poster", .null),
       ("popularity", .null), ("tmdb_raw", .obj [("media_type", .str "movie"), ("id", .num 1)])],
     .obj [("type", .str "tv"), ("id", .num 3), ("title", .null),
       ("release_date", .null), ("overview", .null), ("poster", .null),
       ("popularity", .null), ("tmdb_raw", .obj [("media_type", .str "tv"), ("id", .num 3)])]]
    rfl rfl (by decide) (fun q => rfl) rfl rfl
  exact ⟨h.1, h.2.2⟩


/-! ## Trending lemmas and claim C3 -/

theorem trendingFold_forall2 {mt : String} {rs items : List JValue}
    (h : trendingFold mt rs = .ok items) :
    List.Forall₂ (fun r item => trendingItem mt r = .ok item) rs items := by
  induction rs generalizing items with
  | nil =>
    simp [trendingFold] at h
    subst h
    exact List.Forall₂.nil
  | cons r rest ih =>
    cases hti : trendingItem mt r with
    | error e => simp [trendingFold, hti] at h
    | ok item0 =>
      cases htf : trendingFold mt rest with
      | error e => simp [trendingFold, hti, htf] at h
      | ok items0 =>
        simp only [trendingFold, hti, htf, Except.ok.injEq] at h
        subst h
        exact List.Forall₂.cons hti (ih htf)

theorem trendingItem_fields {mt : String} {rf : JObj} {item : JValue}
    (h : trendingItem mt (.obj rf) = .ok item) :
    ∃ ifs, item = .obj ifs ∧ jget ifs "raw" = some (.obj rf) ∧
      ((truthy (jgetD rf "poster_path" .null) = false ∧ jget ifs "poster" = some .null) ∨
       (∃ p, jgetD rf "poster_path" .null = .str p ∧
         jget ifs "poster" = some (.str ("https://image.tmdb.org/t/p/w342" ++ p)))) := by
  by_cases hp : truthy (jgetD rf "poster_path" .null) = true
  · cases hpp : jgetD rf "poster_path" .null with
    | str p =>
      rw [hpp] at hp
      simp only [trendingItem, hpp] at h
      rw [if_pos hp] at h
      simp only [Except.ok.injEq] at h
      subst h
      exact ⟨_, rfl, rfl, Or.inr ⟨p, rfl, rfl⟩⟩
    | null => rw [hpp] at hp; simp [truthy] at hp
    | bool b =>
      rw [hpp] at hp
      simp only [trendingItem, hpp] at h
      rw [if_pos hp] at h
      simp at h
    | num n =>
      rw [hpp] at hp
      simp only [trendingItem, hpp] at h
      rw [if_pos hp] at h
      simp at h
    | arr xs =>
      rw [hpp] at hp
      simp only [trendingItem, hpp] at h
      rw [if_pos hp] at h
      simp at h
    | obj fs2 =>
      rw [hpp] at hp
      simp only [trendingItem, hpp] at h
      rw [if_pos hp] at h
      simp at h
  · rw [Bool.not_eq_true] at hp
    simp only [trendingItem] at h
    rw [if_neg (by simp [hp])] at h
    simp only [Except.ok.injEq] at h
    subst h
    exact ⟨_, rfl, rfl, Or.inl ⟨hp, rfl⟩⟩

/-- C3: `get_trending` validates its two enum arguments BEFORE any
request: for a media type outside the enumerated set, or a time window
outside its set, it fails with a `ValueError` and leaves the state —
including the request log — untouched; for valid arguments (with a key
configured and the provider reachable) it issues the single trending
request and returns the normalized list in provider order
(`Forall₂` pairs the i-th returned item with the i-th raw provider
record), each item retaining the original raw record under `raw` and
carrying the derived absolute poster URL (or `None` for a falsy poster
path). -/
theorem get_trending_spec (env : Env) (s : St) (media_type time_window : String)
    (page : Int) (k : String) (df : JObj) (rs items : List JValue) :
    ((¬ (media_type = "all" ∨ media_type = "movie" ∨ media_type = "tv") ∨
      ¬ (time_window = "day" ∨ time_window = "week")) →
      ∃ m, get_trending env media_type time_window page s = (.error (.valueError m), s)) ∧
    ((media_type = "all" ∨ media_type = "movie" ∨ media_type = "tv") →
     (time_window = "day" ∨ time_window = "week") →
     env.tmdbApiKey = some k → k ≠ "" →
     (∀ q, env.tmdbHttp ("/trending/" ++ media_type ++ "/" ++ time_window) q =
        some (200, some (.obj df))) →
     jgetD df "results" (.arr []) = .arr rs →
     trendingFold media_type rs = .ok items →
      get_trending env media_type time_window page s =
        (.ok items, { s with log := s.log ++ ["/trending/" ++ media_type ++ "/" ++ time_window] }) ∧
      List.Forall₂ (fun r item => ∀ rf, r = .obj rf →
        ∃ ifs, item = .obj ifs ∧ jget ifs "raw" = some r ∧
          ((truthy (jgetD rf "poster_path" .null) = false ∧ jget ifs "poster" = some .null) ∨
           (∃ p, jgetD rf "poster_path" .null = .str p ∧
             jget ifs "poster" = some (.str ("https://image.tmdb.org/t/p/w342" ++ p))))) rs items) := by
  constructor
  · intro hbad
    unfold get_trending
    by_cases hmt : media_type = "all" ∨ media_type = "movie" ∨ media_type = "tv"
    · rcases hbad with hbad | hbad
      · exact absurd hmt hbad
      · rw [if_neg (not_not_intro hmt), if_pos hbad]
        exact ⟨_, rfl⟩
    · rw [if_pos hmt]
      exact ⟨_, rfl⟩
  · intro hA hB hkey hk hresp hres hfold
    have hreq : _req env ("/trending/" ++ media_type ++ "/" ++ time_window)
        [("page", .num page)] s
        = (.ok (.obj df),
            { s with log := s.log ++ ["/trending/" ++ media_type ++ "/" ++ time_window] }) := by
      unfold _req
      rw [hkey]
      dsimp only
      rw [if_neg hk]
      rw [hresp]
      dsimp only
      rw [if_neg (by simp)]
    constructor
    · unfold get_trending
      rw [if_neg (not_not_intro hA), if_neg (not_not_intro hB)]
      rw [hreq]
      dsimp only
      rw [hres]
      dsimp only
      rw [hfold]
    · refine (trendingFold_forall2 hfold).imp ?_
      intro r item hri rf hr
      subst hr
      exact trendingItem_fields hri

/-- Witness for `get_trending_spec`: the invalid media type fails
without touching the log; the valid call returns the normalized item
with the derived poster URL and the raw record retained. -/
theorem get_trending_spec_witness :
    (∃ m, get_trending envTrend "bogus" "week" 1 st0 = (.error (.valueError m), st0)) ∧
    get_trending envTrend "movie" "week" 1 st0 =
      (.ok [.obj [("id", .num 9), ("media_type", .str "movie"), ("title", .null),
        ("release_date", .str ""), ("poster_path", .str "/p.jpg"),
        ("poster", .str "https://image.tmdb.org/t/p/w342/p.jpg"),
        ("popularity", .null), ("vote_average", .null),
        ("raw", .obj [("id", .num 9), ("media_type", .str "movie"), ("poster_path", .str "/p.jpg")])]],
       { st0 with log := ["/trending/movie/week"] }) := by
  constructor
  · exact (get_trending_spec envTrend st0 "bogus" "week" 1 "K" [] [] []).1
      (Or.inl (by decide))
  · exact ((get_trending_spec envTrend st0 "movie" "week" 1 "K"
      [("results", .arr
        [.obj [("id", .num 9), ("media_type", .str "movie"), ("poster_path", .str "/p.jpg")]])]
      [.obj [("id", .num 9), ("media_type", .str "movie"), ("poster_path", .str "/p.jpg")]]
      [.obj [("id", .num 9), ("media_type", .str "movie"), ("title", .null),
        ("release_date", .str ""), ("poster_path", .str "/p.jpg"),
        ("poster", .str "https://image.tmdb.org/t/p/w342/p.jpg"),
        ("popularity", .null), ("vote_average", .null),
        ("raw", .obj [("id", .num 9), ("media_type", .str "movie"), ("poster_path", .str "/p.jpg")])]]).2
      (Or.inr (Or.inl rfl)) (Or.inr rfl) rfl (by decide) (fun q => rfl) rfl rfl).1


/-! ## Claim C6 (movie detail awards enrichment) -/

/-- C6: for a movie detail call (uncached, key configured, provider
reachable) whose provider record carries a valid (non-empty) external
identifier:
with the secondary-provider key configured and the secondary provider
answering with an `Awards` string, the returned detail object contains
a non-null `awards` field holding that string; with the secondary key
absent the returned object does not contain an `awards` field at all;
and whatever the secondary provider does (any oracle behaviour,
including transport failure, non-200 status and malformed bodies is
quantified over by `env`), the detail call returns normally — the
enrichment step can never make it raise. -/
theorem movie_details_awards (env : Env) (s : St) (tmdb_id : Int)
    (k okk iid aw : String) (df ef jf : JObj) (gs genres : List JValue)
    (hcache : s.cacheFile = none)
    (hkey : env.tmdbApiKey = some k) (hk : k ≠ "")
    (hresp : ∀ q, env.tmdbHttp ("/movie/" ++ toString tmdb_id) q = some (200, some (.obj df)))
    (hgen : jgetD df "genres" (.arr []) = .arr gs)
    (hgfold : genreFold gs = .ok genres)
    (hext : jgetD df "external_ids" (.obj []) = .obj ef)
    (hiid : jgetD ef "imdb_id" .null = .str iid) (hiidne : iid ≠ "") :
    (env.omdbApiKey = some okk → okk ≠ "" →
     env.omdbHttp (.str iid) = some (200, some (.obj jf)) →
     jget jf "Awards" = some (.str aw) →
      ∃ ofs s', get_movie_details env tmdb_id s = (.ok (.obj ofs), s') ∧
        jget ofs "awards" = some (.str aw)) ∧
    (optStrTruthy env.omdbApiKey = false →
      ∃ s', get_movie_details env tmdb_id s =
        (.ok (.obj (movieDetailFields df genres ef)), s') ∧
        jget (movieDetailFields df genres ef) "awards" = none) ∧
    (∃ v s', get_movie_details env tmdb_id s = (.ok v, s')) := by
  have hreq : _req env ("/movie/" ++ toString tmdb_id)
      [("append_to_response", .str "credits,external_ids")] s
      = (.ok (.obj df), { s with log := s.log ++ ["/movie/" ++ toString tmdb_id] }) := by
    unfold _req
    rw [hkey]
    dsimp only
    rw [if_neg hk]
    rw [hresp]
    dsimp only
    rw [if_neg (by simp)]
  have hpre : get_movie_details env tmdb_id s =
      (if truthy (jgetD ef "imdb_id" .null) ∧ optStrTruthy env.omdbApiKey then
        match _get_awards_from_omdb env (jgetD ef "imdb_id" .null)
            { s with log := s.log ++ ["/movie/" ++ toString tmdb_id] } with
        | (aw0, s3) =>
          (.ok (.obj (jset (movieDetailFields df genres ef) "awards" aw0)),
            _cache_set ("movie:" ++ toString tmdb_id)
              (.obj (jset (movieDetailFields df genres ef) "awards" aw0)) CACHE_TTL s3)
      else
        (.ok (.obj (movieDetailFields df genres ef)),
          _cache_set ("movie:" ++ toString tmdb_id)
            (.obj (movieDetailFields df genres ef)) CACHE_TTL
            { s with log := s.log ++ ["/movie/" ++ toString tmdb_id] })) := by
    unfold get_movie_details
    rw [cache_get_empty _ _ hcache]
    dsimp only
    rw [hreq]
    dsimp only
    rw [hgen]
    dsimp only
    rw [hgfold]
    dsimp only
    rw [hext]
  have htr : truthy (.str iid) = true := by
    simp [truthy, hiidne]
  refine ⟨?_, ?_, ?_⟩
  · intro hok hokne homdb hjf
    have hok2 : optStrTruthy env.omdbApiKey = true := by
      rw [hok]
      simp [optStrTruthy, hokne]
    have haw : _get_awards_from_omdb env (jgetD ef "imdb_id" .null)
        { s with log := s.log ++ ["/movie/" ++ toString tmdb_id] }
        = (.str aw,
            { s with log := (s.log ++ ["/movie/" ++ toString tmdb_id]) ++ ["http://www.omdbapi.com/"] }) := by
      unfold _get_awards_from_omdb
      rw [hiid]
      rw [if_neg (by simp [htr, hok2])]
      rw [homdb]
      try dsimp only
      rw [if_neg (by simp)]
      try dsimp only
      unfold jgetD
      rw [hjf]
      rfl
    rw [hpre]
    rw [if_pos ⟨by rw [hiid]; exact htr, hok2⟩]
    rw [haw]
    dsimp only
    exact ⟨_, _, rfl, jget_jset_self _ _ _⟩
  · intro hob
    rw [hpre]
    rw [if_neg (by simp [hob])]
    exact ⟨_, rfl, rfl⟩
  · rw [hpre]
    by_cases hc : truthy (jgetD ef "imdb_id" .null) = true ∧ optStrTruthy env.omdbApiKey = true
    · rw [if_pos hc]
      rcases hga : _get_awards_from_omdb env (jgetD ef "imdb_id" .null)
        { s with log := s.log ++ ["/movie/" ++ toString tmdb_id] } with ⟨aw0, s3⟩
      exact ⟨_, _, rfl⟩
    · rw [if_neg hc]
      exact ⟨_, _, rfl⟩

/-- Witness for `movie_details_awards`: with the secondary key the
detail carries the awards string; without it the `awards` field is
absent. -/
theorem movie_details_awards_witness :
    (∃ ofs s', get_movie_details envDetail 5 st0 = (.ok (.obj ofs), s') ∧
      jget ofs "awards" = some (.str "Won 2 Oscars")) ∧
    (∃ s', get_movie_details envDetailNoKey 5 st0 =
      (.ok (.obj (movieDetailFields
        [("id", .num 5), ("title", .str "T"), ("external_ids", .obj [("imdb_id", .str "tt1")])]
        [] [("imdb_id", .str "tt1")])), s') ∧
      jget (movieDetailFields
        [("id", .num 5), ("title", .str "T"), ("external_ids", .obj [("imdb_id", .str "tt1")])]
        [] [("imdb_id", .str "tt1")]) "awards" = none) := by
  constructor
  · exact (movie_details_awards envDetail st0 5 "K" "OK" "tt1" "Won 2 Oscars"
      [("id", .num 5), ("title", .str "T"), ("external_ids", .obj [("imdb_id", .str "tt1")])]
      [("imdb_id", .str "tt1")] [("Awards", .str "Won 2 Oscars")] [] []
      rfl rfl (by decide) (fun q => rfl) rfl rfl rfl rfl (by decide)).1
      rfl (by decide) rfl rfl
  · exact (movie_details_awards envDetailNoKey st0 5 "K" "unused" "tt1" "unused"
      [("id", .num 5), ("title", .str "T"), ("external_ids", .obj [("imdb_id", .str "tt1")])]
      [("imdb_id", .str "tt1")] [] [] []
      rfl rfl (by decide) (fun q => rfl) rfl rfl rfl rfl (by decide)).2.1 rfl

end MovieApp
